import Mathlib

/-!
Verification development for the Twilio ↔ OpenAI realtime voice relay.

The definitions below are shallow embeddings of the JavaScript sources:
  * the per-call media-stream state machine of `src/index.js`
    (`fastify.get('/media-stream')` handler; the variant in
    `src/unnamed/part_000` has the same relay logic),
  * the call supervisor (reconnection + one-shot greeting) of
    `src/unnamed/part_000`,
  * the tool executor of `src/services/supabase-client.js`
    (concatenated in `src/test/config.test.js`) and of `src/index.js`,
  * the incoming-call webhooks of `src/unnamed/part_001` and `src/index.js`.

JavaScript truthiness is modelled explicitly: a missing/`null` string or the
empty string is falsy (`strTruthy`), a missing/`null` number or `0` is falsy
(`numFalsy`).  Event handlers are pure step functions
`state → event → state × outputs`; each handler execution is one atomic step,
which matches the single-threaded cooperative scheduling of the source.
-/

/-- JS truthiness for an optional string value: `null`/`undefined` and `""`
are falsy. -/
def strTruthy : Option String → Bool
  | none => false
  | some s => s ≠ ""

/-- JS truthiness test used as `!x` on an optional number: `null`/`undefined`
and `0` are falsy. -/
def numFalsy : Option Int → Bool
  | none => true
  | some n => n = 0

/-- JS `a || b` for an optional string `a` with string default `b`. -/
def jsOrS (a : Option String) (b : String) : String :=
  match a with
  | none => b
  | some s => if s = "" then b else s

/-- Per-call mutable connection state of the `/media-stream` handler in
`src/index.js` (lines 305–313).  The business-context fields
(`businessId`, `businessContext`) are carried by the same closure in the
source but are not touched by any of the relay/interruption handlers
modelled here. -/
structure MediaState where
  streamSid : Option String
  callerPhone : String
  forwardedFrom : String
  latestMediaTimestamp : Int
  lastAssistantItem : Option String
  markQueue : List String
  responseStartTimestampTwilio : Option Int
  deriving DecidableEq, Repr

/-- The initial connection state (`src/index.js` lines 305–312). -/
def initialMediaState : MediaState :=
  { streamSid := none
    callerPhone := ""
    forwardedFrom := ""
    latestMediaTimestamp := 0
    lastAssistantItem := none
    markQueue := []
    responseStartTimestampTwilio := none }

/-- Inbound events handled by the media-stream handler: Twilio carrier
events (`start`, `media`, `mark`) and OpenAI model events
(`response.audio.delta`, `input_audio_buffer.speech_started`). -/
inductive MediaEvent where
  | twilioStart (sid : String) (caller forwarded : Option String)
  | twilioMedia (timestamp : Int) (payload : String)
  | twilioMark
  | aiAudioDelta (delta itemId : Option String)
  | aiSpeechStarted
  deriving DecidableEq, Repr

/-- Outbound messages emitted by the handlers: Twilio `media`/`mark`/`clear`
frames and OpenAI `conversation.item.truncate` /
`input_audio_buffer.append` messages. -/
inductive OutMsg where
  | twilioMedia (sid : Option String) (payload : String)
  | twilioMark (sid : String)
  | twilioClear (sid : Option String)
  | aiTruncate (itemId : String) (audioEndMs : Int)
  | aiAppend (payload : String)
  deriving DecidableEq, Repr

/-- `sendMark` (`src/index.js` lines 420–429): only when `streamSid` is
truthy, send a `mark` frame and push one marker onto `markQueue`. -/
def sendMark (s : MediaState) : MediaState × List OutMsg :=
  match s.streamSid with
  | some sid =>
      if sid = "" then (s, [])
      else ({ s with markQueue := s.markQueue ++ ["responsePart"] },
            [OutMsg.twilioMark sid])
  | none => (s, [])

/-- The `response.audio.delta` case of the OpenAI message handler
(`src/index.js` lines 442–455): forward the payload, latch
`responseStartTimestampTwilio` when it is falsy (`!responseStartTimestampTwilio`
in the source — note this is a JS falsiness test, so a latched value of `0`
re-latches), record a truthy `item_id`, then `sendMark`. -/
def handleAudioDelta (s : MediaState) (delta itemId : Option String) :
    MediaState × List OutMsg :=
  if strTruthy delta then
    let payload := delta.getD ""
    let s1 :=
      if numFalsy s.responseStartTimestampTwilio then
        { s with responseStartTimestampTwilio := some s.latestMediaTimestamp }
      else s
    let s2 := if strTruthy itemId then { s1 with lastAssistantItem := itemId } else s1
    let r := sendMark s2
    (r.1, OutMsg.twilioMedia s.streamSid payload :: r.2)
  else (s, [])

/-- `handleSpeechStarted` (`src/index.js` lines 402–418): when markers are
pending and a response-start timestamp is latched (`!= null`), send a
truncate (if `lastAssistantItem` is truthy) and a `clear`, then reset the
marker queue, the active item and the latch in the same step. -/
def handleSpeechStarted (s : MediaState) : MediaState × List OutMsg :=
  match s.responseStartTimestampTwilio with
  | some t0 =>
      if s.markQueue.length > 0 then
        let elapsed := s.latestMediaTimestamp - t0
        let truncMsgs :=
          if strTruthy s.lastAssistantItem then
            [OutMsg.aiTruncate (s.lastAssistantItem.getD "") elapsed]
          else []
        ({ s with markQueue := [], lastAssistantItem := none,
                  responseStartTimestampTwilio := none },
         truncMsgs ++ [OutMsg.twilioClear s.streamSid])
      else (s, [])
  | none => (s, [])

/-- One step of the media-stream event loop (`src/index.js` lines 437–524).
`aiOpen` models `openAiWs.readyState === WebSocket.OPEN`, which is consulted
only when forwarding inbound carrier audio. -/
def mediaStep (aiOpen : Bool) (s : MediaState) : MediaEvent → MediaState × List OutMsg
  | MediaEvent.twilioStart sid caller forwarded =>
      ({ s with streamSid := some sid
                callerPhone := caller.getD ""
                forwardedFrom := forwarded.getD ""
                responseStartTimestampTwilio := none
                latestMediaTimestamp := 0 }, [])
  | MediaEvent.twilioMedia t payload =>
      ({ s with latestMediaTimestamp := t },
       if aiOpen then [OutMsg.aiAppend payload] else [])
  | MediaEvent.twilioMark =>
      (if s.markQueue.length > 0 then { s with markQueue := s.markQueue.tail } else s,
       [])
  | MediaEvent.aiAudioDelta delta itemId => handleAudioDelta s delta itemId
  | MediaEvent.aiSpeechStarted => handleSpeechStarted s

/-- Process a list of events in arrival order, accumulating outputs. -/
def processAll (aiOpen : Bool) : MediaState → List MediaEvent → MediaState × List OutMsg
  | s, [] => (s, [])
  | s, e :: rest =>
      let r := mediaStep aiOpen s e
      let r2 := processAll aiOpen r.1 rest
      (r2.1, r.2 ++ r2.2)

/-- Recognizer for `conversation.item.truncate` outputs. -/
def isTruncate : OutMsg → Bool
  | OutMsg.aiTruncate _ _ => true
  | _ => false

/-- Events that only relay audio: inbound carrier media frames, and model
audio chunks that carry a non-empty payload and a non-empty output-item id. -/
def chunkOrMedia : MediaEvent → Bool
  | MediaEvent.twilioMedia _ _ => true
  | MediaEvent.aiAudioDelta (some d) (some i) => d ≠ "" && i ≠ ""
  | _ => false

/-- `MAX_RECONNECTS` (`src/unnamed/part_000` line 17). -/
def MAX_RECONNECTS : Nat := 2

/-- Call-supervisor state of `src/unnamed/part_000`: the per-connection
`reconnectAttempts` counter (line 33) and the one-shot `greetingSent` flag
(line 34). -/
structure SupState where
  reconnectAttempts : Nat
  greetingSent : Bool
  deriving DecidableEq, Repr

/-- Supervisor state at carrier-connection time. -/
def initialSupState : SupState := { reconnectAttempts := 0, greetingSent := false }

/-- Model-transport lifecycle events: `open`, and `close` with a close
code (1000 = normal closure). -/
inductive SupEvent where
  | wsOpen
  | wsClose (code : Nat)
  deriving DecidableEq, Repr

/-- Observable supervisor actions: the `session.update` configuration send,
the greeting trigger (the synthetic `conversation.item.create` +
`response.create` pair scheduled under the one-shot flag), and a scheduled
reconnection with its attempt number and backoff delay. -/
inductive SupAction where
  | sessionUpdateSent
  | greetingTriggered
  | reconnectScheduled (attempt delayMs : Nat)
  deriving DecidableEq, Repr

/-- One supervisor step (`src/unnamed/part_000`): on `open`,
`initializeSession` (lines 140–174) sends the session configuration and,
only when `greetingSent` is still false, sets the flag and schedules the
greeting; on `close` (lines 124–132), when the code is not 1000 and the
attempt budget is not exhausted, increment `reconnectAttempts` and schedule
a reconnect with delay `500 * reconnectAttempts`. -/
def supStep (s : SupState) : SupEvent → SupState × List SupAction
  | SupEvent.wsOpen =>
      if s.greetingSent then (s, [SupAction.sessionUpdateSent])
      else ({ s with greetingSent := true },
            [SupAction.sessionUpdateSent, SupAction.greetingTriggered])
  | SupEvent.wsClose code =>
      if code ≠ 1000 ∧ s.reconnectAttempts < MAX_RECONNECTS then
        ({ s with reconnectAttempts := s.reconnectAttempts + 1 },
         [SupAction.reconnectScheduled (s.reconnectAttempts + 1)
            (500 * (s.reconnectAttempts + 1))])
      else (s, [])

/-- Run the supervisor over a lifecycle-event trace. -/
def runSup : SupState → List SupEvent → SupState × List SupAction
  | s, [] => (s, [])
  | s, e :: rest =>
      let r := supStep s e
      let r2 := runSup r.1 rest
      (r2.1, r.2 ++ r2.2)

/-- Recognizer for transport-open events. -/
def isOpenEv : SupEvent → Bool
  | SupEvent.wsOpen => true
  | _ => false

/-- Recognizer for the greeting trigger action. -/
def isGreeting : SupAction → Bool
  | SupAction.greetingTriggered => true
  | _ => false

/-- Recognizer for the session-configuration send action. -/
def isSessionUpdate : SupAction → Bool
  | SupAction.sessionUpdateSent => true
  | _ => false

/-- Recognizer for scheduled-reconnect actions. -/
def isReconnect : SupAction → Bool
  | SupAction.reconnectScheduled _ _ => true
  | _ => false

/-- The reconnect actions expected after `n` further attempts starting from
attempt counter `a`: attempts `a+1, …, a+n`, each with backoff
`500 * attempt`. -/
def reconActsFrom (a : Nat) : Nat → List SupAction
  | 0 => []
  | n + 1 =>
      SupAction.reconnectScheduled (a + 1) (500 * (a + 1)) ::
        reconActsFrom (a + 1) n

/-- The character set of the JS regex class `\\s` (whitespace), as used by
`phone.replace(/[\\s\\-()]/g, \'\')`. -/
def jsWhitespace (c : Char) : Bool :=
  c = ' ' || c = '\t' || c = '\n' || c = '\r' ||
  c = '\x0b' || c = '\x0c' ||
  c = '\u00A0' || c = '\u1680' ||
  (0x2000 ≤ c.toNat && c.toNat ≤ 0x200A) ||
  c = '\u2028' || c = '\u2029' || c = '\u202F' ||
  c = '\u205F' || c = '\u3000' || c = '\uFEFF'

/-- The normalization step of `validatePhone`
(`src/services/supabase-client.js` line 84): remove whitespace, hyphens and
parentheses. -/
def stripPhoneSeparators (cs : List Char) : List Char :=
  cs.filter (fun c => !(jsWhitespace c || c = '-' || c = '(' || c = ')'))

/-- The regex character class `\\d`, i.e. the ten decimal digits. -/
def isDigitJS (c : Char) : Bool :=
  c = '0' || c = '1' || c = '2' || c = '3' || c = '4' ||
  c = '5' || c = '6' || c = '7' || c = '8' || c = '9'

/-- The regex character class `[1-9]`. -/
def isOneToNine (c : Char) : Bool :=
  c = '1' || c = '2' || c = '3' || c = '4' ||
  c = '5' || c = '6' || c = '7' || c = '8' || c = '9'

/-- The part of `PHONE_REGEX` after the optional plus:
`[1-9]\\d{6,14}$`. -/
def phoneDigitsOk : List Char → Bool
  | [] => false
  | d :: rest =>
      isOneToNine d && rest.all isDigitJS &&
        decide (6 ≤ rest.length) && decide (rest.length ≤ 14)

/-- `PHONE_REGEX = /^\\+?[1-9]\\d{6,14}$/`
(`src/services/supabase-client.js` line 79).  The optional leading plus is
consumed when present; backtracking cannot help because `[1-9]` never
matches `+`. -/
def matchesPhoneRegex (cs : List Char) : Bool :=
  match cs with
  | '+' :: rest => phoneDigitsOk rest
  | _ => phoneDigitsOk cs

/-- `validatePhone` (`src/services/supabase-client.js` lines 82–85): falsy
input (missing or empty) is rejected, otherwise the regex is tested on the
separator-stripped value. -/
def validatePhone (phone : Option String) : Bool :=
  match phone with
  | none => false
  | some s =>
      if s = "" then false
      else matchesPhoneRegex (stripPhoneSeparators s.toList)

/-- `DATE_REGEX = /^\\d{4}-\\d{2}-\\d{2}$/`
(`src/services/supabase-client.js` line 80). -/
def matchesDateRegex (s : String) : Bool :=
  match s.toList with
  | [y1, y2, y3, y4, h1, m1, m2, h2, d1, d2] =>
      isDigitJS y1 && isDigitJS y2 && isDigitJS y3 && isDigitJS y4 &&
      h1 = '-' && isDigitJS m1 && isDigitJS m2 && h2 = '-' &&
      isDigitJS d1 && isDigitJS d2
  | _ => false

/-- `validateDate` (`src/services/supabase-client.js` lines 87–90). -/
def validateDate (date : Option String) : Bool :=
  match date with
  | none => false
  | some s => if s = "" then false else matchesDateRegex s

/-- JS `<` on strings: lexicographic by code unit (code-point order, which
coincides for the basic-multilingual-plane strings handled here). -/
def charListLt : List Char → List Char → Bool
  | [], [] => false
  | [], _ :: _ => true
  | _ :: _, [] => false
  | a :: as, b :: bs =>
      if a.toNat < b.toNat then true
      else if b.toNat < a.toNat then false
      else charListLt as bs

/-- JS string comparison `a < b`. -/
def jsStrLt (a b : String) : Bool := charListLt a.toList b.toList

/-- The argument object of a tool call; absent JSON fields are `none`. -/
structure ToolArgs where
  phone : Option String := none
  start_date : Option String := none
  end_date : Option String := none
  patient_name : Option String := none
  patient_phone : Option String := none
  appointment_date : Option String := none
  reason : Option String := none
  appointment_id : Option String := none
  deriving DecidableEq, Repr

/-- `validateToolArgs` (`src/services/supabase-client.js` lines 139–180):
per-tool rules, returning the first violated rule\'s message, or `none`.
Unrecognized names fall through every case and return `none`. -/
def validateToolArgs (name : String) (args : ToolArgs) (callerPhone : String) :
    Option String :=
  if name = "lookup_patient" then
    let phone := jsOrS args.phone callerPhone
    if phone ≠ "" && !validatePhone (some phone) then
      some "Invalid phone number format."
    else none
  else if name = "check_availability" then
    if !(validateDate args.start_date && validateDate args.end_date) then
      some "Invalid date format. Please use YYYY-MM-DD."
    else if jsStrLt (args.end_date.getD "") (args.start_date.getD "") then
      some "Start date must be before or equal to end date."
    else none
  else if name = "book_appointment" then
    let phone := jsOrS args.patient_phone callerPhone
    if phone ≠ "" && !validatePhone (some phone) then
      some "Invalid phone number format."
    else if !(strTruthy args.patient_name && strTruthy args.appointment_date
        && strTruthy args.reason) then
      some "Missing required booking details."
    else none
  else if name = "cancel_appointment" then
    if !strTruthy args.appointment_id then some "Missing appointment ID."
    else none
  else if name = "get_patient_appointments" then
    let phone := jsOrS args.phone callerPhone
    if phone ≠ "" && !validatePhone (some phone) then
      some "Invalid phone number format."
    else none
  else none

/-- Backend request bodies built by `buildRequestBody`; string fields that
the source leaves possibly `undefined` are `Option String`. -/
inductive SCRequestBody where
  | lookupPatient (phone businessId : String)
  | checkAvailability (message callerPhone businessId : String)
  | bookAppointment (name : Option String) (phone : String)
      (apptDate symptoms : Option String) (businessId : String)
  | cancelAppointment (message callerPhone businessId : String)
  | getPatientAppointments (message callerPhone businessId : String)
  deriving DecidableEq, Repr

/-- Render an optional string the way a JS template literal renders
`undefined`. -/
def jsInterp (v : Option String) : String := v.getD "undefined"

/-- `buildRequestBody` (`src/services/supabase-client.js` lines 92–137);
returns `none` (the source returns `null`) for an unrecognized name. -/
def buildRequestBody (name : String) (args : ToolArgs)
    (callerPhone businessId : String) : Option SCRequestBody :=
  if name = "lookup_patient" then
    some (SCRequestBody.lookupPatient (jsOrS args.phone callerPhone) businessId)
  else if name = "check_availability" then
    some (SCRequestBody.checkAvailability
      ("Check availability from " ++ jsInterp args.start_date ++ " to "
        ++ jsInterp args.end_date)
      callerPhone businessId)
  else if name = "book_appointment" then
    some (SCRequestBody.bookAppointment args.patient_name
      (jsOrS args.patient_phone callerPhone) args.appointment_date args.reason
      businessId)
  else if name = "cancel_appointment" then
    some (SCRequestBody.cancelAppointment
      ("Cancel appointment " ++ jsInterp args.appointment_id)
      callerPhone businessId)
  else if name = "get_patient_appointments" then
    some (SCRequestBody.getPatientAppointments
      "What are my upcoming appointments?" (jsOrS args.phone callerPhone)
      businessId)
  else none

/-- The process-wide backend configuration consulted by the executor
(`config.supabase.configured`, `config.business.id`). -/
structure SupabaseConfig where
  configured : Bool
  businessId : String
  deriving DecidableEq, Repr

/-- Outcome of the single backend `fetch`: a parsed JSON response with its
HTTP status, an abort (timeout), or a network failure. -/
inductive FetchResult (β : Type) where
  | response (status : Nat) (body : β)
  | timeout
  | networkFailure
  deriving DecidableEq, Repr

/-- A tool-call result: a locally constructed `\x7berror: msg\x7d` object, or
the backend\'s parsed body returned verbatim. -/
inductive ToolOutcome (β : Type) where
  | errorMsg (msg : String)
  | backendBody (body : β)
  deriving DecidableEq, Repr

/-- `executeToolCall` (`src/services/supabase-client.js` lines 182–234):
configured check, then validation, then body building, then the fetch.  The
second component is the list of backend requests issued.  Faithful to the
source, the HTTP status of a response is logged but never checked, so the
parsed body is returned whatever the status. -/
def executeToolCall {β : Type} (cfg : SupabaseConfig) (name : String)
    (args : ToolArgs) (callerPhone : String) (fetch : FetchResult β) :
    ToolOutcome β × List SCRequestBody :=
  if !cfg.configured then
    (ToolOutcome.errorMsg "Backend not configured. Please contact support.", [])
  else
    match validateToolArgs name args callerPhone with
    | some msg => (ToolOutcome.errorMsg msg, [])
    | none =>
        match buildRequestBody name args callerPhone cfg.businessId with
        | none => (ToolOutcome.errorMsg "Unknown tool", [])
        | some body =>
            match fetch with
            | FetchResult.response _ b => (ToolOutcome.backendBody b, [body])
            | FetchResult.timeout =>
                (ToolOutcome.errorMsg "Request timed out. Please try again.",
                 [body])
            | FetchResult.networkFailure =>
                (ToolOutcome.errorMsg "Failed to execute action. Please try again.",
                 [body])

/-- The `actionMap` of `src/index.js` (lines 240–248). -/
def actionMap (name : String) : Option String :=
  if name = "lookup_patient" then some "lookup_patient"
  else if name = "check_appointment_availability" then some "check_availability"
  else if name = "book_appointment" then some "book_appointment"
  else if name = "cancel_appointment" then some "cancel_appointment"
  else if name = "get_patient_appointments" then some "get_patient_appointments"
  else none

/-- The caller-phone fallback injection of `src/index.js` (lines 252–254). -/
def enrichArgs (args : ToolArgs) (callerPhone : String) : ToolArgs :=
  let a1 :=
    if !strTruthy args.phone && callerPhone ≠ "" then
      { args with phone := some callerPhone }
    else args
  if !strTruthy a1.patient_phone && callerPhone ≠ "" then
    { a1 with patient_phone := some callerPhone }
  else a1

/-- `callEdge` (`src/index.js` lines 30–48): a non-2xx status
(`!response.ok`) raises, which the caller turns into a structured error. -/
def callEdge {β : Type} (fetch : FetchResult β) : Except String β :=
  match fetch with
  | FetchResult.response status body =>
      if 200 ≤ status && status ≤ 299 then Except.ok body
      else Except.error ("Edge error " ++ toString status)
  | FetchResult.timeout => Except.error "timeout"
  | FetchResult.networkFailure => Except.error "fetch failed"

/-- `executeToolCall` of `src/index.js` (lines 237–264): unknown names are
rejected before any enrichment or network call; otherwise the enriched
request is sent via `callEdge` and any raised error becomes a structured
error result.  The second component lists the issued requests as
`(action, enriched args, business id)`. -/
def executeToolCallIndex {β : Type} (name : String) (args : ToolArgs)
    (callerPhone businessId : String) (fetch : FetchResult β) :
    ToolOutcome β × List (String × ToolArgs × String) :=
  match actionMap name with
  | none => (ToolOutcome.errorMsg "Unknown tool", [])
  | some action =>
      let enriched := enrichArgs args callerPhone
      match callEdge fetch with
      | Except.ok body => (ToolOutcome.backendBody body, [(action, enriched, businessId)])
      | Except.error _ =>
          (ToolOutcome.errorMsg "Something went wrong. Please visit our website for help.",
           [(action, enriched, businessId)])

/-- The tool names recognized by the `src/services/supabase-client.js`
executor. -/
def scToolNames : List String :=
  ["lookup_patient", "check_availability", "book_appointment",
   "cancel_appointment", "get_patient_appointments"]

/-- The tool names recognized by the `src/index.js` executor. -/
def indexToolNames : List String :=
  ["lookup_patient", "check_appointment_availability", "book_appointment",
   "cancel_appointment", "get_patient_appointments"]

/-- `sanitizePhone` (`src/unnamed/part_001` lines 3–5): keep only plus signs
and digits. -/
def sanitizePhone (phone : Option String) : String :=
  ((phone.getD "").toList.filter (fun c => c = '+' || isDigitJS c)).asString

/-- The incoming-call TwiML of `src/unnamed/part_001` (lines 7–22): the
sanitized caller phone is embedded as the stream parameter value. -/
def incomingCallTwimlPart001 (host : String) (fromField : Option String) : String :=
  "<?xml version=\"1.0\" encoding=\"UTF-8\"?>\n<Response>\n    <Connect>\n        <Stream url=\"wss://"
    ++ host
    ++ "/media-stream\">\n            <Parameter name=\"callerPhone\" value=\""
    ++ sanitizePhone fromField
    ++ "\" />\n        </Stream>\n    </Connect>\n</Response>"

/-- The incoming-call handler of `src/index.js` (lines 271–298): without a
forwarded-from value and without a fallback business id, a reject document;
otherwise the raw `From` and `ForwardedFrom` values are embedded in the
returned markup verbatim (no sanitization in this variant). -/
def incomingCallIndex (host : String) (fromField forwardedField : Option String)
    (fallbackBusinessId : Option String) : String :=
  let callerPhone := jsOrS fromField ""
  let forwardedFrom := jsOrS forwardedField ""
  if forwardedFrom = "" && !strTruthy fallbackBusinessId then
    "<?xml version=\"1.0\" encoding=\"UTF-8\"?>\n<Response>\n    <Say voice=\"alice\" language=\"nl-NL\">Bedankt voor uw oproep. Dit nummer is niet bereikbaar. Gelieve uw kliniek rechtstreeks te bellen.</Say>\n    <Say voice=\"alice\" language=\"fr-FR\">Merci pour votre appel. Ce numéro n\'est pas disponible. Veuillez appeler votre clinique directement.</Say>\n    <Hangup/>\n</Response>"
  else
    "<?xml version=\"1.0\" encoding=\"UTF-8\"?>\n<Response>\n    <Connect>\n        <Stream url=\"wss://"
      ++ host
      ++ "/media-stream\">\n            <Parameter name=\"callerPhone\" value=\""
      ++ callerPhone
      ++ "\" />\n            <Parameter name=\"forwardedFrom\" value=\""
      ++ forwardedFrom
      ++ "\" />\n        </Stream>\n    </Connect>\n</Response>"

/-- Exact prefix match of one character list against another. -/
def leadMatch : List Char → List Char → Bool
  | [], _ => true
  | _ :: _, [] => false
  | a :: as, b :: bs => a = b && leadMatch as bs

/-- Substring occurrence on character lists. -/
def occursWithin (needle : List Char) : List Char → Bool
  | [] => leadMatch needle []
  | b :: bs => leadMatch needle (b :: bs) || occursWithin needle bs

/-- `containsSub hay needle` holds when `needle` occurs in `hay`. -/
def containsSub (hay needle : String) : Bool :=
  occursWithin needle.toList hay.toList

/-- Modelled from the spec (the phone-format rule, stated independently of
the regex): after removing whitespace, hyphens and parentheses, the value
consists of an optional leading plus sign followed by 7 to 15 digits whose
first digit is non-zero. -/
def phoneSpecAccepts (p : Option String) : Prop :=
  ∃ (s : String) (digits : List Char), p = some s
    ∧ (stripPhoneSeparators s.toList = digits
        ∨ stripPhoneSeparators s.toList = '+' :: digits)
    ∧ 7 ≤ digits.length ∧ digits.length ≤ 15
    ∧ (∀ c ∈ digits, isDigitJS c = true)
    ∧ digits.head? ≠ some '0'

theorem processAll_append (aiOpen : Bool) (s : MediaState) (l1 l2 : List MediaEvent) :
    processAll aiOpen s (l1 ++ l2) =
      ((processAll aiOpen (processAll aiOpen s l1).1 l2).1,
       (processAll aiOpen s l1).2 ++ (processAll aiOpen (processAll aiOpen s l1).1 l2).2) := by
  induction l1 generalizing s with
  | nil => simp [processAll]
  | cons e rest ih =>
      simp only [List.cons_append, processAll, List.append_eq]
      rw [ih]
      simp [List.append_assoc]

/-- Claim C2: processing a speech-started event is a single atomic transition:
either no markers are pending or no response-start timestamp is latched, and
the state is unchanged with no message emitted; or the marker queue is
emptied and `lastAssistantItem` (the active output item) and
`responseStartTimestampTwilio` are cleared together in that same step, with
the truncate (when an active item exists) and clear messages emitted.  Each
event handler runs to completion before any other event of either transport
is processed, so the transition is never observable half-done. -/
theorem speech_started_atomic (aiOpen : Bool) (s : MediaState) :
    ((s.markQueue = [] ∨ s.responseStartTimestampTwilio = none) →
      mediaStep aiOpen s MediaEvent.aiSpeechStarted = (s, []))
    ∧ (∀ t0 : Int, s.responseStartTimestampTwilio = some t0 → s.markQueue ≠ [] →
        mediaStep aiOpen s MediaEvent.aiSpeechStarted =
          ({ s with markQueue := [], lastAssistantItem := none,
                    responseStartTimestampTwilio := none },
           (if strTruthy s.lastAssistantItem then
              [OutMsg.aiTruncate (s.lastAssistantItem.getD "")
                (s.latestMediaTimestamp - t0)]
            else []) ++ [OutMsg.twilioClear s.streamSid])) := by
  constructor
  · intro h
    rcases h with h | h
    · cases hr : s.responseStartTimestampTwilio with
      | none => simp [mediaStep, handleSpeechStarted, hr]
      | some t0 => simp [mediaStep, handleSpeechStarted, hr, h]
    · simp [mediaStep, handleSpeechStarted, h]
  · intro t0 hr hq
    have hlen : s.markQueue.length > 0 := by
      cases hmq : s.markQueue with
      | nil => exact absurd hmq hq
      | cons a l => simp [hmq]
    simp [mediaStep, handleSpeechStarted, hr, hlen]

/-- Witness for C2: both branches at concrete states. -/
theorem speech_started_atomic_witness :
    (mediaStep true
        { streamSid := some "MZ1", callerPhone := "", forwardedFrom := "",
          latestMediaTimestamp := 7, lastAssistantItem := none,
          markQueue := [], responseStartTimestampTwilio := some 3 }
        MediaEvent.aiSpeechStarted =
      ({ streamSid := some "MZ1", callerPhone := "", forwardedFrom := "",
         latestMediaTimestamp := 7, lastAssistantItem := none,
         markQueue := [], responseStartTimestampTwilio := some 3 }, []))
    ∧ (mediaStep true
        { streamSid := some "MZ1", callerPhone := "", forwardedFrom := "",
          latestMediaTimestamp := 7, lastAssistantItem := some "item_1",
          markQueue := ["responsePart"], responseStartTimestampTwilio := some 3 }
        MediaEvent.aiSpeechStarted =
      ({ streamSid := some "MZ1", callerPhone := "", forwardedFrom := "",
         latestMediaTimestamp := 7, lastAssistantItem := none,
         markQueue := [], responseStartTimestampTwilio := none },
       [OutMsg.aiTruncate "item_1" 4, OutMsg.twilioClear (some "MZ1")])) := by
  constructor
  · exact (speech_started_atomic true _).1 (Or.inl rfl)
  · have h := (speech_started_atomic true
      { streamSid := some "MZ1", callerPhone := "", forwardedFrom := "",
        latestMediaTimestamp := 7, lastAssistantItem := some "item_1",
        markQueue := ["responsePart"], responseStartTimestampTwilio := some 3 }).2
      3 rfl (by decide)
    simpa using h

/-- Unfolded form of `handleAudioDelta` for a truthy payload: the latch and
item-id updates always happen, and the mark is pushed exactly when
`streamSid` is truthy. -/
theorem handleAudioDelta_eq (s : MediaState) (delta itemId : Option String)
    (hd : strTruthy delta = true) :
    handleAudioDelta s delta itemId =
      (if strTruthy s.streamSid then
        ({ s with
             responseStartTimestampTwilio :=
               if numFalsy s.responseStartTimestampTwilio then
                 some s.latestMediaTimestamp
               else s.responseStartTimestampTwilio,
             lastAssistantItem :=
               if strTruthy itemId then itemId else s.lastAssistantItem,
             markQueue := s.markQueue ++ ["responsePart"] },
         [OutMsg.twilioMedia s.streamSid (delta.getD ""),
          OutMsg.twilioMark (s.streamSid.getD "")])
      else
        ({ s with
             responseStartTimestampTwilio :=
               if numFalsy s.responseStartTimestampTwilio then
                 some s.latestMediaTimestamp
               else s.responseStartTimestampTwilio,
             lastAssistantItem :=
               if strTruthy itemId then itemId else s.lastAssistantItem },
         [OutMsg.twilioMedia s.streamSid (delta.getD "")])) := by
  unfold handleAudioDelta sendMark
  obtain ⟨sid0, cp, ff, lt, la, mq, rs⟩ := s
  cases hsid : sid0 with
  | none =>
      have hst : strTruthy (none : Option String) = false := rfl
      by_cases hn : numFalsy rs <;>
      by_cases hi : strTruthy itemId <;>
      simp [hd, hn, hi, hsid, hst]
  | some sid =>
      by_cases hse : sid = ""
      · subst hse
        have hst : strTruthy (some "") = false := rfl
        by_cases hn : numFalsy rs <;>
        by_cases hi : strTruthy itemId <;>
        simp [hd, hn, hi, hsid, hst]
      · have hst : strTruthy (some sid) = true := by
          simp [strTruthy, hse]
        by_cases hn : numFalsy rs <;>
        by_cases hi : strTruthy itemId <;>
        simp [hd, hn, hi, hsid, hse, hst]

/-- The marker-queue invariant is preserved by any single event. -/
theorem mark_inv_step (aiOpen : Bool) (s : MediaState) (e : MediaEvent)
    (h : s.markQueue ≠ [] → s.streamSid ≠ none) :
    (mediaStep aiOpen s e).1.markQueue ≠ [] → (mediaStep aiOpen s e).1.streamSid ≠ none := by
  cases e with
  | twilioStart sid caller forwarded => simp [mediaStep]
  | twilioMedia t payload => simpa [mediaStep] using h
  | twilioMark =>
      by_cases hq : s.markQueue.length > 0
      · intro hne
        simp only [mediaStep, if_pos hq] at hne ⊢
        have : s.markQueue ≠ [] := by
          intro hnil
          rw [hnil] at hne
          simp at hne
        exact h this
      · simpa [mediaStep, if_neg hq] using h
  | aiAudioDelta delta itemId =>
      by_cases hd : strTruthy delta
      · simp only [mediaStep, handleAudioDelta_eq s delta itemId hd]
        by_cases hsid : strTruthy s.streamSid
        · cases hs : s.streamSid with
          | none => rw [hs] at hsid; simp [strTruthy] at hsid
          | some sid =>
              rw [hs] at hsid
              simp [hsid, hs]
        · rw [if_neg hsid]
          simpa using h
      · have : handleAudioDelta s delta itemId = (s, []) := by
          simp [handleAudioDelta, hd]
        simpa [mediaStep, this] using h
  | aiSpeechStarted =>
      cases hr : s.responseStartTimestampTwilio with
      | none => simpa [mediaStep, handleSpeechStarted, hr] using h
      | some t0 =>
          by_cases hq : s.markQueue.length > 0
          · simp [mediaStep, handleSpeechStarted, hr, hq]
          · simpa [mediaStep, handleSpeechStarted, hr, hq] using h

/-- The marker-queue invariant is preserved by any event sequence. -/
theorem mark_inv_trace (aiOpen : Bool) (evs : List MediaEvent) :
    ∀ s : MediaState, (s.markQueue ≠ [] → s.streamSid ≠ none) →
      ((processAll aiOpen s evs).1.markQueue ≠ [] →
        (processAll aiOpen s evs).1.streamSid ≠ none) := by
  induction evs with
  | nil => intro s h; simpa [processAll] using h
  | cons e rest ih =>
      intro s h
      simp only [processAll]
      exact ih _ (mark_inv_step aiOpen s e h)

/-- Claim C10 (implicit invariant of the media-stream event loop): in every
state reachable from the initial connection state, the pending marker queue
is non-empty only if `streamSid` is non-null; `sendMark` is a no-op before a
stream-start has set `streamSid`; a model audio chunk arriving before
stream-start is forwarded with a null stream id and enqueues no marker, and
a speech-started event right after it is a no-op even though audio was
sent. -/
theorem markqueue_streamsid_invariant :
    (∀ (aiOpen : Bool) (evs : List MediaEvent),
      (processAll aiOpen initialMediaState evs).1.markQueue ≠ [] →
        (processAll aiOpen initialMediaState evs).1.streamSid ≠ none)
    ∧ (∀ s : MediaState, s.streamSid = none → sendMark s = (s, []))
    ∧ (∀ (aiOpen : Bool) (d : String) (itemId : Option String), d ≠ "" →
        (mediaStep aiOpen initialMediaState (MediaEvent.aiAudioDelta (some d) itemId)).2 =
            [OutMsg.twilioMedia none d]
        ∧ (mediaStep aiOpen initialMediaState (MediaEvent.aiAudioDelta (some d) itemId)).1.markQueue = []
        ∧ mediaStep aiOpen
            (mediaStep aiOpen initialMediaState (MediaEvent.aiAudioDelta (some d) itemId)).1
            MediaEvent.aiSpeechStarted =
            ((mediaStep aiOpen initialMediaState (MediaEvent.aiAudioDelta (some d) itemId)).1, [])) := by
  refine ⟨?_, ?_, ?_⟩
  · intro aiOpen evs
    exact mark_inv_trace aiOpen evs initialMediaState (by simp [initialMediaState])
  · intro s hs
    simp [sendMark, hs]
  · intro aiOpen d itemId hd
    have hdt : strTruthy (some d) = true := by simpa [strTruthy] using hd
    by_cases hi : strTruthy itemId <;>
      simp [mediaStep, handleAudioDelta, handleSpeechStarted, sendMark,
            initialMediaState, hdt, hi, numFalsy]

/-- Witness for C10: the invariant, the pre-start `sendMark` no-op and the
pre-start chunk behavior, each at a concrete input with every hypothesis
discharged. -/
theorem markqueue_streamsid_invariant_witness :
    (processAll true initialMediaState
        [MediaEvent.twilioStart "MZ1" (some "+3211111111") none,
         MediaEvent.aiAudioDelta (some "QUJD") (some "item_1")]).1.streamSid ≠ none
    ∧ sendMark initialMediaState = (initialMediaState, [])
    ∧ (mediaStep true initialMediaState
        (MediaEvent.aiAudioDelta (some "QUJD") (some "item_1"))).2 =
        [OutMsg.twilioMedia none "QUJD"] := by
  refine ⟨?_, ?_, ?_⟩
  · exact markqueue_streamsid_invariant.1 true _ (by decide)
  · exact markqueue_streamsid_invariant.2.1 initialMediaState rfl
  · exact (markqueue_streamsid_invariant.2.2 true "QUJD" (some "item_1") (by decide)).1

/-- `handleSpeechStarted` in the interrupting case, as one equation. -/
theorem handleSpeechStarted_active (s : MediaState) (t0 : Int)
    (hr : s.responseStartTimestampTwilio = some t0) (hq : s.markQueue ≠ []) :
    handleSpeechStarted s =
      ({ s with markQueue := [], lastAssistantItem := none,
                responseStartTimestampTwilio := none },
       (if strTruthy s.lastAssistantItem then
          [OutMsg.aiTruncate (s.lastAssistantItem.getD "")
            (s.latestMediaTimestamp - t0)]
        else []) ++ [OutMsg.twilioClear s.streamSid]) := by
  have hlen : s.markQueue.length > 0 := by
    cases hmq : s.markQueue with
    | nil => exact absurd hmq hq
    | cons a l => simp [hmq]
  simp [handleSpeechStarted, hr, hlen]

/-- Invariant of an in-flight assistant utterance: relaying further media
frames and well-formed audio chunks preserves the stream id, the latched
(non-zero) response-start timestamp, the non-emptiness of the marker queue
and the truthiness of the active item, and emits no truncate message. -/
theorem relay_inv (aiOpen : Bool) (sid : String) (t0 : Int)
    (hsne : sid ≠ "") (ht0 : t0 ≠ 0) :
    ∀ evs : List MediaEvent, (∀ e ∈ evs, chunkOrMedia e = true) →
    ∀ s : MediaState, s.streamSid = some sid →
      s.responseStartTimestampTwilio = some t0 →
      s.markQueue ≠ [] → strTruthy s.lastAssistantItem = true →
      ((processAll aiOpen s evs).1.streamSid = some sid
       ∧ (processAll aiOpen s evs).1.responseStartTimestampTwilio = some t0
       ∧ (processAll aiOpen s evs).1.markQueue ≠ []
       ∧ strTruthy (processAll aiOpen s evs).1.lastAssistantItem = true
       ∧ (processAll aiOpen s evs).2.filter isTruncate = []) := by
  intro evs
  induction evs with
  | nil =>
      intro _ s h1 h2 h3 h4
      exact ⟨h1, h2, h3, h4, by simp [processAll]⟩
  | cons e rest ih =>
      intro hall s h1 h2 h3 h4
      have he : chunkOrMedia e = true := hall e (by simp)
      have hrest : ∀ e ∈ rest, chunkOrMedia e = true := by
        intro x hx
        exact hall x (by simp [hx])
      cases e with
      | twilioStart a b c => simp [chunkOrMedia] at he
      | twilioMark => simp [chunkOrMedia] at he
      | aiSpeechStarted => simp [chunkOrMedia] at he
      | twilioMedia t payload =>
          have hstep : mediaStep aiOpen s (MediaEvent.twilioMedia t payload) =
              ({ s with latestMediaTimestamp := t },
               if aiOpen then [OutMsg.aiAppend payload] else []) := rfl
          have hr := ih hrest { s with latestMediaTimestamp := t }
            (by simpa using h1) (by simpa using h2) (by simpa using h3)
            (by simpa using h4)
          refine ⟨?_, ?_, ?_, ?_, ?_⟩ <;>
            simp only [processAll, hstep] <;>
            first
            | exact hr.1
            | exact hr.2.1
            | exact hr.2.2.1
            | exact hr.2.2.2.1
            | (rw [List.filter_append, hr.2.2.2.2]
               cases aiOpen <;> simp [isTruncate])
      | aiAudioDelta delta itemId =>
          cases delta with
          | none => simp [chunkOrMedia] at he
          | some d =>
              cases itemId with
              | none => simp [chunkOrMedia] at he
              | some i =>
                  simp only [chunkOrMedia, Bool.and_eq_true, decide_eq_true_eq,
                    ne_eq] at he
                  have hd : d ≠ "" := by simpa using he.1
                  have hi : i ≠ "" := by simpa using he.2
                  have hdt : strTruthy (some d) = true := by
                    simpa [strTruthy] using hd
                  have hit : strTruthy (some i) = true := by
                    simpa [strTruthy] using hi
                  have hst : strTruthy s.streamSid = true := by
                    rw [h1]
                    simpa [strTruthy] using hsne
                  have hnf : numFalsy s.responseStartTimestampTwilio = false := by
                    rw [h2]
                    simpa [numFalsy] using ht0
                  have hstep : mediaStep aiOpen s (MediaEvent.aiAudioDelta (some d) (some i)) =
                      ({ s with lastAssistantItem := some i,
                                markQueue := s.markQueue ++ ["responsePart"] },
                       [OutMsg.twilioMedia s.streamSid d,
                        OutMsg.twilioMark sid]) := by
                    show handleAudioDelta s (some d) (some i) = _
                    rw [handleAudioDelta_eq s (some d) (some i) hdt]
                    rw [if_pos hst]
                    simp [hnf, hit, h1]
                  have hr := ih hrest
                    { s with lastAssistantItem := some i,
                             markQueue := s.markQueue ++ ["responsePart"] }
                    (by simpa using h1) (by simpa using h2) (by simp)
                    (by simpa using hit)
                  refine ⟨?_, ?_, ?_, ?_, ?_⟩ <;>
                    simp only [processAll, hstep] <;>
                    first
                    | exact hr.1
                    | exact hr.2.1
                    | exact hr.2.2.1
                    | exact hr.2.2.2.1
                    | (rw [List.filter_append, hr.2.2.2.2]
                       simp [isTruncate])

/-- Claim C1 (amended): after the carrier stream has started with a
non-empty stream id, starting from an idle utterance state
(no latched response-start timestamp, empty marker queue) whose latest
inbound carrier timestamp is non-zero, relaying one audio chunk followed by
any mix of further media frames and well-formed chunks and then a
speech-started event emits exactly one truncate message, whose
`audio_end_ms` is the final inbound carrier timestamp minus the timestamp
latched at the first chunk, and leaves the marker queue empty.  (The
non-zero timestamp hypothesis is forced by the source: the latch uses a JS
falsiness test, so a latched value of `0` is re-latched by the next
chunk.) -/
theorem bargein_truncate (aiOpen : Bool) (s : MediaState) (sid d i : String)
    (rest : List MediaEvent)
    (hsid : s.streamSid = some sid) (hsne : sid ≠ "")
    (hrs : s.responseStartTimestampTwilio = none)
    (hmq : s.markQueue = [])
    (hd : d ≠ "") (hi : i ≠ "")
    (ht0 : s.latestMediaTimestamp ≠ 0)
    (hrest : ∀ e ∈ rest, chunkOrMedia e = true) :
    ((processAll aiOpen s
        ((MediaEvent.aiAudioDelta (some d) (some i) :: rest) ++
          [MediaEvent.aiSpeechStarted])).2.filter isTruncate =
      [OutMsg.aiTruncate
        ((processAll aiOpen s
            (MediaEvent.aiAudioDelta (some d) (some i) :: rest)).1.lastAssistantItem.getD "")
        ((processAll aiOpen s
            (MediaEvent.aiAudioDelta (some d) (some i) :: rest)).1.latestMediaTimestamp
          - s.latestMediaTimestamp)])
    ∧ (processAll aiOpen s
        ((MediaEvent.aiAudioDelta (some d) (some i) :: rest) ++
          [MediaEvent.aiSpeechStarted])).1.markQueue = [] := by
  have hdt : strTruthy (some d) = true := by simpa [strTruthy] using hd
  have hit : strTruthy (some i) = true := by simpa [strTruthy] using hi
  have hst : strTruthy s.streamSid = true := by
    rw [hsid]
    simpa [strTruthy] using hsne
  have hnf : numFalsy s.responseStartTimestampTwilio = true := by
    simp [hrs, numFalsy]
  have hchunk : mediaStep aiOpen s (MediaEvent.aiAudioDelta (some d) (some i)) =
      ({ s with responseStartTimestampTwilio := some s.latestMediaTimestamp,
                lastAssistantItem := some i,
                markQueue := s.markQueue ++ ["responsePart"] },
       [OutMsg.twilioMedia s.streamSid d, OutMsg.twilioMark sid]) := by
    show handleAudioDelta s (some d) (some i) = _
    rw [handleAudioDelta_eq s (some d) (some i) hdt]
    rw [if_pos hst]
    simp [hnf, hit, hsid]
  have hinv := relay_inv aiOpen sid s.latestMediaTimestamp hsne ht0 rest hrest
    { s with responseStartTimestampTwilio := some s.latestMediaTimestamp,
             lastAssistantItem := some i,
             markQueue := s.markQueue ++ ["responsePart"] }
    (by simpa using hsid) (by simp) (by simp) (by simpa using hit)
  have hmid : processAll aiOpen s (MediaEvent.aiAudioDelta (some d) (some i) :: rest) =
      ((processAll aiOpen
          { s with responseStartTimestampTwilio := some s.latestMediaTimestamp,
                   lastAssistantItem := some i,
                   markQueue := s.markQueue ++ ["responsePart"] } rest).1,
       [OutMsg.twilioMedia s.streamSid d, OutMsg.twilioMark sid] ++
         (processAll aiOpen
          { s with responseStartTimestampTwilio := some s.latestMediaTimestamp,
                   lastAssistantItem := some i,
                   markQueue := s.markQueue ++ ["responsePart"] } rest).2) := by
    simp only [processAll, hchunk]
  have hspeech : mediaStep aiOpen
      (processAll aiOpen s (MediaEvent.aiAudioDelta (some d) (some i) :: rest)).1
      MediaEvent.aiSpeechStarted =
      ({ (processAll aiOpen s (MediaEvent.aiAudioDelta (some d) (some i) :: rest)).1
           with markQueue := [], lastAssistantItem := none,
                responseStartTimestampTwilio := none },
       [OutMsg.aiTruncate
          ((processAll aiOpen s
              (MediaEvent.aiAudioDelta (some d) (some i) :: rest)).1.lastAssistantItem.getD "")
          ((processAll aiOpen s
              (MediaEvent.aiAudioDelta (some d) (some i) :: rest)).1.latestMediaTimestamp
            - s.latestMediaTimestamp),
        OutMsg.twilioClear
          (processAll aiOpen s
            (MediaEvent.aiAudioDelta (some d) (some i) :: rest)).1.streamSid]) := by
    show handleSpeechStarted _ = _
    rw [handleSpeechStarted_active _ s.latestMediaTimestamp
      (by rw [hmid]; exact hinv.2.1) (by rw [hmid]; exact hinv.2.2.1)]
    rw [hmid]
    simp [hinv.2.2.2.1]
  have happ := processAll_append aiOpen s
    (MediaEvent.aiAudioDelta (some d) (some i) :: rest) [MediaEvent.aiSpeechStarted]
  have hlast : processAll aiOpen
      (processAll aiOpen s (MediaEvent.aiAudioDelta (some d) (some i) :: rest)).1
      [MediaEvent.aiSpeechStarted] =
      ((mediaStep aiOpen
          (processAll aiOpen s (MediaEvent.aiAudioDelta (some d) (some i) :: rest)).1
          MediaEvent.aiSpeechStarted).1,
       (mediaStep aiOpen
          (processAll aiOpen s (MediaEvent.aiAudioDelta (some d) (some i) :: rest)).1
          MediaEvent.aiSpeechStarted).2) := by
    simp [processAll]
  constructor
  · rw [happ]
    simp only [List.filter_append]
    rw [hlast]
    simp only [hspeech]
    have hmidtrunc : (processAll aiOpen s
        (MediaEvent.aiAudioDelta (some d) (some i) :: rest)).2.filter isTruncate = [] := by
      rw [hmid]
      simp only [List.filter_append]
      rw [hinv.2.2.2.2]
      simp [isTruncate]
    rw [hmidtrunc]
    simp [isTruncate]
  · rw [happ]
    simp only [hlast, hspeech]

/-- Counterexample to C1 as literally stated: the stream starts (inbound
timestamp 0), a first chunk arrives and latches `0`, the carrier clock
advances to 100, a second chunk arrives and — because the source tests JS
falsiness rather than null — re-latches `100`; at speech start the latest
inbound timestamp is 200, and the truncate carries `audio_end_ms = 100`,
not `200 − 0 = 200` as the claim (timestamp latched at the first chunk)
requires. -/
theorem bargein_truncate_counterexample :
    ((processAll true initialMediaState
        [MediaEvent.twilioStart "MZ1" (some "+3211111111") none,
         MediaEvent.aiAudioDelta (some "AAA") (some "item_A"),
         MediaEvent.twilioMedia 100 "BBB",
         MediaEvent.aiAudioDelta (some "CCC") (some "item_B"),
         MediaEvent.twilioMedia 200 "DDD",
         MediaEvent.aiSpeechStarted]).2.filter isTruncate =
      [OutMsg.aiTruncate "item_B" 100])
    ∧ (100 : Int) ≠ 200 - 0 := by
  constructor
  · rfl
  · decide

/-- Witness for C1: a concrete run with a non-zero initial inbound
timestamp. -/
theorem bargein_truncate_witness :
    ((processAll true
        { streamSid := some "MZ1", callerPhone := "+3211111111",
          forwardedFrom := "", latestMediaTimestamp := 5,
          lastAssistantItem := none, markQueue := [],
          responseStartTimestampTwilio := none }
        ((MediaEvent.aiAudioDelta (some "AAA") (some "item_A") ::
            [MediaEvent.twilioMedia 42 "BBB"]) ++
          [MediaEvent.aiSpeechStarted])).2.filter isTruncate =
      [OutMsg.aiTruncate "item_A" 37])
    ∧ (processAll true
        { streamSid := some "MZ1", callerPhone := "+3211111111",
          forwardedFrom := "", latestMediaTimestamp := 5,
          lastAssistantItem := none, markQueue := [],
          responseStartTimestampTwilio := none }
        ((MediaEvent.aiAudioDelta (some "AAA") (some "item_A") ::
            [MediaEvent.twilioMedia 42 "BBB"]) ++
          [MediaEvent.aiSpeechStarted])).1.markQueue = [] := by
  have h := bargein_truncate true
    { streamSid := some "MZ1", callerPhone := "+3211111111",
      forwardedFrom := "", latestMediaTimestamp := 5,
      lastAssistantItem := none, markQueue := [],
      responseStartTimestampTwilio := none }
    "MZ1" "AAA" "item_A" [MediaEvent.twilioMedia 42 "BBB"]
    rfl (by decide) rfl rfl (by decide) (by decide) (by decide) (by decide)
  exact ⟨by simpa using h.1, h.2⟩

/-- Greeting count over any trace from any supervisor state: zero when the
one-shot flag is already set, otherwise one exactly when the trace contains
an open event. -/
theorem sup_greet_general (evs : List SupEvent) :
    ∀ s : SupState, ((runSup s evs).2.filter isGreeting).length =
      (if s.greetingSent then 0 else if evs.any isOpenEv then 1 else 0) := by
  induction evs with
  | nil =>
      intro s
      cases hg : s.greetingSent <;> simp [runSup, hg]
  | cons e rest ih =>
      intro s
      cases e with
      | wsOpen =>
          by_cases hg : s.greetingSent
          · simp [runSup, supStep, hg, List.filter_append, isGreeting, ih,
                  isOpenEv]
          · simp [runSup, supStep, hg, List.filter_append, isGreeting, ih,
                  isOpenEv]
      | wsClose code =>
          by_cases hc : code ≠ 1000 ∧ s.reconnectAttempts < MAX_RECONNECTS
          · simp [runSup, supStep, hc, List.filter_append, isGreeting, ih,
                  isOpenEv]
          · simp [runSup, supStep, hc, List.filter_append, isGreeting, ih,
                  isOpenEv]

/-- Session-configuration count over any trace: one per open event. -/
theorem sup_session_general (evs : List SupEvent) :
    ∀ s : SupState, ((runSup s evs).2.filter isSessionUpdate).length =
      (evs.filter isOpenEv).length := by
  induction evs with
  | nil => intro s; simp [runSup]
  | cons e rest ih =>
      intro s
      cases e with
      | wsOpen =>
          by_cases hg : s.greetingSent <;>
            simp [runSup, supStep, hg, List.filter_append, isSessionUpdate,
                  isOpenEv, ih]
      | wsClose code =>
          by_cases hc : code ≠ 1000 ∧ s.reconnectAttempts < MAX_RECONNECTS <;>
            simp [runSup, supStep, hc, List.filter_append, isSessionUpdate,
                  isOpenEv, ih]

/-- Claim C3: over any lifecycle trace of one call — including abnormal
closes and reconnections — the greeting is triggered exactly once as soon
as the trace contains at least one transport-open, never more, while the
session configuration is re-sent on every transport-open. -/
theorem greeting_one_shot (evs : List SupEvent) :
    ((runSup initialSupState evs).2.filter isGreeting).length =
      (if evs.any isOpenEv then 1 else 0)
    ∧ ((runSup initialSupState evs).2.filter isSessionUpdate).length =
      (evs.filter isOpenEv).length := by
  constructor
  · simpa [initialSupState] using sup_greet_general evs initialSupState
  · exact sup_session_general evs initialSupState

/-- Witness for C3: a reconnect trace (open, abnormal close, open) triggers
the greeting once and the session configuration twice. -/
theorem greeting_one_shot_witness :
    ((runSup initialSupState
        [SupEvent.wsOpen, SupEvent.wsClose 1006, SupEvent.wsOpen]).2.filter
          isGreeting).length = 1
    ∧ ((runSup initialSupState
        [SupEvent.wsOpen, SupEvent.wsClose 1006, SupEvent.wsOpen]).2.filter
          isSessionUpdate).length = 2 := by
  have h := greeting_one_shot [SupEvent.wsOpen, SupEvent.wsClose 1006, SupEvent.wsOpen]
  exact ⟨by simpa using h.1, by simpa using h.2⟩

/-- Reconnect actions over any trace: exactly the attempts from the initial
counter up to the final counter, with linear backoff, and the counter never
decreases. -/
theorem sup_recon_general (evs : List SupEvent) :
    ∀ s : SupState,
      s.reconnectAttempts ≤ (runSup s evs).1.reconnectAttempts
      ∧ (runSup s evs).2.filter isReconnect =
          reconActsFrom s.reconnectAttempts
            ((runSup s evs).1.reconnectAttempts - s.reconnectAttempts) := by
  induction evs with
  | nil => intro s; simp [runSup, reconActsFrom]
  | cons e rest ih =>
      intro s
      cases e with
      | wsOpen =>
          by_cases hg : s.greetingSent
          · have ihs := ih s
            constructor
            · simpa [runSup, supStep, hg] using ihs.1
            · simpa [runSup, supStep, hg, List.filter_append, isReconnect]
                using ihs.2
          · have ihs := ih { s with greetingSent := true }
            constructor
            · simpa [runSup, supStep, hg] using ihs.1
            · simpa [runSup, supStep, hg, List.filter_append, isReconnect]
                using ihs.2
      | wsClose code =>
          by_cases hc : code ≠ 1000 ∧ s.reconnectAttempts < MAX_RECONNECTS
          · have ihs := ih { s with reconnectAttempts := s.reconnectAttempts + 1 }
            have hle : s.reconnectAttempts + 1 ≤
                (runSup { s with reconnectAttempts := s.reconnectAttempts + 1 } rest).1.reconnectAttempts := by
              simpa using ihs.1
            constructor
            · simp only [runSup, supStep, if_pos hc]
              omega
            · simp only [runSup, supStep, if_pos hc, List.filter_append]
              rw [ihs.2]
              have harith :
                  (runSup { s with reconnectAttempts := s.reconnectAttempts + 1 } rest).1.reconnectAttempts
                    - s.reconnectAttempts =
                  ((runSup { s with reconnectAttempts := s.reconnectAttempts + 1 } rest).1.reconnectAttempts
                    - (s.reconnectAttempts + 1)) + 1 := by
                omega
              simp [harith, reconActsFrom, isReconnect]
          · have ihs := ih s
            constructor
            · simpa [runSup, supStep, hc] using ihs.1
            · simpa [runSup, supStep, hc, List.filter_append, isReconnect]
                using ihs.2

/-- The reconnect counter never exceeds the budget. -/
theorem sup_attempts_bound (evs : List SupEvent) :
    ∀ s : SupState, s.reconnectAttempts ≤ MAX_RECONNECTS →
      (runSup s evs).1.reconnectAttempts ≤ MAX_RECONNECTS := by
  induction evs with
  | nil => intro s h; simpa [runSup] using h
  | cons e rest ih =>
      intro s h
      cases e with
      | wsOpen =>
          by_cases hg : s.greetingSent
          · simp only [runSup, supStep, if_pos hg]
            exact ih s h
          · simp only [runSup, supStep, if_neg hg]
            exact ih { s with greetingSent := true } h
      | wsClose code =>
          by_cases hc : code ≠ 1000 ∧ s.reconnectAttempts < MAX_RECONNECTS
          · simp only [runSup, supStep, if_pos hc]
            exact ih { s with reconnectAttempts := s.reconnectAttempts + 1 }
              (by simpa using hc.2)
          · simp only [runSup, supStep, if_neg hc]
            exact ih s h

/-- Claim C4: within one call, a normal close (code 1000) never schedules a
reconnect; once the attempt budget is exhausted no close schedules one; a
transport-open never schedules one; over any trace from the initial state
the counter stays at most `MAX_RECONNECTS = 2` and the scheduled reconnects
are exactly attempts `1 … n` with backoff `500 · attempt`; in particular
the two possible attempts carry delays 500 ms and 1000 ms. -/
theorem reconnect_bound (s : SupState) (code : Nat) (evs : List SupEvent) :
    supStep s (SupEvent.wsClose 1000) = (s, [])
    ∧ (MAX_RECONNECTS ≤ s.reconnectAttempts →
        supStep s (SupEvent.wsClose code) = (s, []))
    ∧ (supStep s SupEvent.wsOpen).2.filter isReconnect = []
    ∧ (runSup initialSupState evs).1.reconnectAttempts ≤ MAX_RECONNECTS
    ∧ (runSup initialSupState evs).2.filter isReconnect =
        reconActsFrom 0 (runSup initialSupState evs).1.reconnectAttempts
    ∧ reconActsFrom 0 MAX_RECONNECTS =
        [SupAction.reconnectScheduled 1 500, SupAction.reconnectScheduled 2 1000] := by
  refine ⟨?_, ?_, ?_, ?_, ?_, ?_⟩
  · simp [supStep]
  · intro h
    have : ¬(code ≠ 1000 ∧ s.reconnectAttempts < MAX_RECONNECTS) := by
      intro hc
      omega
    simp [supStep, this]
  · by_cases hg : s.greetingSent <;> simp [supStep, hg, isReconnect]
  · exact sup_attempts_bound evs initialSupState (by simp [initialSupState, MAX_RECONNECTS])
  · simpa [initialSupState] using (sup_recon_general evs initialSupState).2
  · rfl

/-- Witness for C4: three abnormal closes from the initial state yield
exactly two scheduled reconnects (delays 500 and 1000) and a final counter
of two; the budget-exhausted branch is discharged at a concrete state. -/
theorem reconnect_bound_witness :
    (runSup initialSupState
        [SupEvent.wsClose 1006, SupEvent.wsClose 1006, SupEvent.wsClose 1006]).2.filter
      isReconnect =
      [SupAction.reconnectScheduled 1 500, SupAction.reconnectScheduled 2 1000]
    ∧ supStep { reconnectAttempts := 2, greetingSent := true }
        (SupEvent.wsClose 1006) =
      ({ reconnectAttempts := 2, greetingSent := true }, []) := by
  have h := reconnect_bound { reconnectAttempts := 2, greetingSent := true } 1006
    [SupEvent.wsClose 1006, SupEvent.wsClose 1006, SupEvent.wsClose 1006]
  constructor
  · rw [h.2.2.2.2.1]
    rfl
  · exact h.2.1 (by decide)

/-- Helper: an unknown name yields no validation error in
`validateToolArgs`. -/
theorem validateToolArgs_unknown (name : String) (args : ToolArgs)
    (callerPhone : String) (h : name ∉ scToolNames) :
    validateToolArgs name args callerPhone = none := by
  simp only [scToolNames, List.mem_cons, List.mem_singleton, not_or] at h
  obtain ⟨h1, h2, h3, h4, h5, -⟩ := h
  simp [validateToolArgs, h1, h2, h3, h4, h5]

/-- Helper: an unknown name yields no request body. -/
theorem buildRequestBody_unknown (name : String) (args : ToolArgs)
    (callerPhone businessId : String) (h : name ∉ scToolNames) :
    buildRequestBody name args callerPhone businessId = none := by
  simp only [scToolNames, List.mem_cons, List.mem_singleton, not_or] at h
  obtain ⟨h1, h2, h3, h4, h5, -⟩ := h
  simp [buildRequestBody, h1, h2, h3, h4, h5]

/-- Claim C5 (amended): for every unrecognized tool name, any argument
object and any caller identifier, neither executor issues a backend
request; the `src/index.js` executor returns `error: Unknown tool`
unconditionally, and the `supabase-client` executor returns it whenever the
backend is configured (when the backend is unconfigured it returns the
backend-unavailable error first, still without contacting the backend). -/
theorem unknown_tool_no_backend {β : Type} (name : String) (args : ToolArgs)
    (callerPhone businessId : String) (cfg : SupabaseConfig)
    (fetch : FetchResult β)
    (hidx : name ∉ indexToolNames) (hsc : name ∉ scToolNames) :
    executeToolCallIndex name args callerPhone businessId fetch =
      (ToolOutcome.errorMsg "Unknown tool", [])
    ∧ (cfg.configured = true →
        executeToolCall cfg name args callerPhone fetch =
          (ToolOutcome.errorMsg "Unknown tool", []))
    ∧ (executeToolCall cfg name args callerPhone fetch).2 = [] := by
  have hmap : actionMap name = none := by
    simp only [indexToolNames, List.mem_cons, List.mem_singleton, not_or] at hidx
    obtain ⟨h1, h2, h3, h4, h5, -⟩ := hidx
    simp [actionMap, h1, h2, h3, h4, h5]
  refine ⟨?_, ?_, ?_⟩
  · simp [executeToolCallIndex, hmap]
  · intro hcfg
    simp [executeToolCall, hcfg, validateToolArgs_unknown name args callerPhone hsc,
          buildRequestBody_unknown name args callerPhone cfg.businessId hsc]
  · cases hcfg : cfg.configured
    · simp [executeToolCall, hcfg]
    · simp [executeToolCall, hcfg, validateToolArgs_unknown name args callerPhone hsc,
            buildRequestBody_unknown name args callerPhone cfg.businessId hsc]

/-- Counterexample to C5 as literally stated: with the backend
unconfigured, the `supabase-client` executor answers an unknown tool name
with the backend-unavailable error, not with `Unknown tool` (though still
with zero backend requests). -/
theorem unknown_tool_counterexample :
    executeToolCall { configured := false, businessId := "biz-1" }
        "frobnicate" ({} : ToolArgs) ""
        (FetchResult.networkFailure : FetchResult Unit) =
      (ToolOutcome.errorMsg "Backend not configured. Please contact support.", [])
    ∧ (ToolOutcome.errorMsg "Backend not configured. Please contact support."
        ≠ (ToolOutcome.errorMsg "Unknown tool" : ToolOutcome Unit)) := by
  exact ⟨rfl, by decide⟩

/-- Witness for C5: the name `delete_everything` at concrete inputs. -/
theorem unknown_tool_no_backend_witness :
    executeToolCallIndex "delete_everything" ({} : ToolArgs) "" "biz-1"
        (FetchResult.networkFailure : FetchResult Unit) =
      (ToolOutcome.errorMsg "Unknown tool", [])
    ∧ executeToolCall { configured := true, businessId := "biz-1" }
        "delete_everything" ({} : ToolArgs) ""
        (FetchResult.networkFailure : FetchResult Unit) =
      (ToolOutcome.errorMsg "Unknown tool", []) := by
  have h := unknown_tool_no_backend "delete_everything" ({} : ToolArgs) ""
    "biz-1" { configured := true, businessId := "biz-1" }
    (FetchResult.networkFailure : FetchResult Unit)
    (by decide) (by decide)
  exact ⟨h.1, h.2.1 rfl⟩

/-- Claim C6: a `check_availability` call whose two dates both match the
date format but arrive out of order (start lexicographically after end)
returns the ordering-constraint error and issues zero backend requests,
whatever the backend would have answered. -/
theorem check_availability_order_error {β : Type} (cfg : SupabaseConfig)
    (args : ToolArgs) (callerPhone : String) (fetch : FetchResult β)
    (hcfg : cfg.configured = true)
    (hsd : validateDate args.start_date = true)
    (hed : validateDate args.end_date = true)
    (hlt : jsStrLt (args.end_date.getD "") (args.start_date.getD "") = true) :
    executeToolCall cfg "check_availability" args callerPhone fetch =
      (ToolOutcome.errorMsg "Start date must be before or equal to end date.",
       []) := by
  simp [executeToolCall, hcfg, validateToolArgs, hsd, hed, hlt]

/-- Witness for C6: `start_date = 2025-03-10`, `end_date = 2025-03-02`. -/
theorem check_availability_order_error_witness :
    executeToolCall { configured := true, businessId := "biz-1" }
        "check_availability"
        { start_date := some "2025-03-10", end_date := some "2025-03-02" } ""
        (FetchResult.networkFailure : FetchResult Unit) =
      (ToolOutcome.errorMsg "Start date must be before or equal to end date.",
       []) := by
  exact check_availability_order_error _ _ _ _ rfl (by decide) (by decide)
    (by decide)

/-- Claim C8 (evaluated at the failing input): when the backend answers a
POST with HTTP 500 and a parseable JSON body, the `supabase-client`
executor returns that body verbatim as a success — it never consults
`response.ok` — whereas the `src/index.js` executor (via `callEdge`) turns
the same exchange into a structured error, and returns the parsed body
verbatim only for a 2xx status. -/
theorem non2xx_body_returned :
    executeToolCall { configured := true, businessId := "biz-1" }
        "get_patient_appointments" { phone := some "+3212345678" } ""
        (FetchResult.response 500 "backend-error-page") =
      (ToolOutcome.backendBody "backend-error-page",
       [SCRequestBody.getPatientAppointments "What are my upcoming appointments?"
          "+3212345678" "biz-1"])
    ∧ executeToolCallIndex "get_patient_appointments"
        { phone := some "+3212345678" } "" "biz-1"
        (FetchResult.response 500 "backend-error-page") =
      (ToolOutcome.errorMsg "Something went wrong. Please visit our website for help.",
       [("get_patient_appointments",
         ({ phone := some "+3212345678" } : ToolArgs), "biz-1")])
    ∧ (∀ (status : Nat) (body : String), 200 ≤ status → status ≤ 299 →
        callEdge (FetchResult.response status body) = Except.ok body) := by
  refine ⟨by decide, by decide, ?_⟩
  intro status body h1 h2
  simp [callEdge, h1, h2]

/-- Witness for C8: a 2xx exchange is returned verbatim by `callEdge`. -/
theorem non2xx_body_returned_witness :
    callEdge (FetchResult.response 200 "payload") = Except.ok "payload" :=
  non2xx_body_returned.2.2 200 "payload" (by decide) (by decide)

/-- The regex class `[1-9]` accepts exactly the digits other than `0`. -/
theorem isOneToNine_iff (c : Char) :
    isOneToNine c = true ↔ (isDigitJS c = true ∧ c ≠ '0') := by
  constructor
  · intro h
    simp only [isOneToNine, Bool.or_eq_true, decide_eq_true_eq] at h
    rcases h with ((((((((h | h) | h) | h) | h) | h) | h) | h) | h) <;>
      subst h <;> exact ⟨by decide, by decide⟩
  · rintro ⟨hd, hz⟩
    simp only [isDigitJS, Bool.or_eq_true, decide_eq_true_eq] at hd
    rcases hd with (((((((((h | h) | h) | h) | h) | h) | h) | h) | h) | h) <;>
      subst h <;>
      first
      | exact absurd rfl hz
      | decide

/-- Digit-tail acceptance, restated as the spec counts it: 7 to 15 digits in
total, first digit non-zero. -/
theorem phoneDigitsOk_iff (ds : List Char) :
    phoneDigitsOk ds = true ↔
      (7 ≤ ds.length ∧ ds.length ≤ 15 ∧ (∀ c ∈ ds, isDigitJS c = true)
        ∧ ds.head? ≠ some '0') := by
  cases ds with
  | nil => simp [phoneDigitsOk]
  | cons d rr =>
      simp only [phoneDigitsOk, Bool.and_eq_true, decide_eq_true_eq,
        List.all_eq_true, List.length_cons, List.head?_cons]
      constructor
      · rintro ⟨⟨⟨h19, hall⟩, h6⟩, h14⟩
        have hd := (isOneToNine_iff d).1 h19
        refine ⟨by omega, by omega, ?_, ?_⟩
        · intro c hc
          rcases List.mem_cons.1 hc with h | h
          · subst h; exact hd.1
          · exact hall c h
        · intro hcon
          exact hd.2 (by injection hcon)
      · rintro ⟨h7, h15, hall, hhead⟩
        have hd : isDigitJS d = true := hall d (by simp)
        have hz : d ≠ '0' := by
          intro h
          exact hhead (by rw [h])
        exact ⟨⟨⟨(isOneToNine_iff d).2 ⟨hd, hz⟩,
          fun c hc => hall c (List.mem_cons_of_mem _ hc)⟩, by omega⟩, by omega⟩

/-- The phone regex accepts exactly the spec's decomposition: an optional
leading plus, then 7–15 digits with a non-zero first digit. -/
theorem matchesPhoneRegex_iff (cs : List Char) :
    matchesPhoneRegex cs = true ↔
      ∃ digits : List Char,
        (cs = digits ∨ cs = '+' :: digits)
        ∧ 7 ≤ digits.length ∧ digits.length ≤ 15
        ∧ (∀ c ∈ digits, isDigitJS c = true)
        ∧ digits.head? ≠ some '0' := by
  cases cs with
  | nil =>
      simp only [matchesPhoneRegex, phoneDigitsOk]
      constructor
      · intro h; cases h
      · rintro ⟨digits, hsplit, h7, -, -, -⟩
        rcases hsplit with h | h
        · rw [← h] at h7; simp at h7
        · cases h
  | cons c rest =>
      by_cases hc : c = '+'
      · subst hc
        have hm : matchesPhoneRegex ('+' :: rest) = phoneDigitsOk rest := rfl
        rw [hm, phoneDigitsOk_iff]
        constructor
        · intro h
          exact ⟨rest, Or.inr rfl, h.1, h.2.1, h.2.2.1, h.2.2.2⟩
        · rintro ⟨digits, hsplit, h7, h15, hall, hhead⟩
          rcases hsplit with h | h
          · exfalso
            have hplus : '+' ∈ digits := by rw [← h]; simp
            have := hall '+' hplus
            simp [isDigitJS] at this
          · have : rest = digits := by injection h
            subst this
            exact ⟨h7, h15, hall, hhead⟩
      · have hm : matchesPhoneRegex (c :: rest) = phoneDigitsOk (c :: rest) := by
          cases rest with
          | nil => simp [matchesPhoneRegex, hc]
          | cons a l => simp [matchesPhoneRegex, hc]
        rw [hm, phoneDigitsOk_iff]
        constructor
        · intro h
          exact ⟨c :: rest, Or.inl rfl, h.1, h.2.1, h.2.2.1, h.2.2.2⟩
        · rintro ⟨digits, hsplit, h7, h15, hall, hhead⟩
          rcases hsplit with h | h
          · rw [h]; exact ⟨h7, h15, hall, hhead⟩
          · exfalso
            exact hc (by injection h)

/-- Claim C7: `validatePhone` accepts exactly those inputs that, after
removing whitespace, hyphens and parentheses, consist of an optional
leading plus sign followed by 7 to 15 digits whose first digit is non-zero;
every other input — missing value, empty string, non-numeric text, leading
zero, wrong length — is rejected. -/
theorem validatePhone_spec (p : Option String) :
    validatePhone p = true ↔ phoneSpecAccepts p := by
  cases p with
  | none =>
      simp only [validatePhone, phoneSpecAccepts]
      constructor
      · intro h; cases h
      · rintro ⟨s, digits, heq, -⟩
        cases heq
  | some s =>
      by_cases hs : s = ""
      · subst hs
        simp only [validatePhone, if_pos rfl, phoneSpecAccepts]
        constructor
        · intro h; cases h
        · rintro ⟨s', digits, heq, hsplit, h7, -, -, -⟩
          have hss : s' = "" := by injection heq with h; exact h.symm
          subst hss
          rcases hsplit with h | h
          · rw [show stripPhoneSeparators "".toList = [] from rfl] at h
            rw [← h] at h7
            simp at h7
          · rw [show stripPhoneSeparators "".toList = [] from rfl] at h
            cases h
      · simp only [validatePhone, if_neg hs]
        rw [matchesPhoneRegex_iff]
        constructor
        · rintro ⟨digits, hsplit, h7, h15, hall, hhead⟩
          exact ⟨s, digits, rfl, hsplit, h7, h15, hall, hhead⟩
        · rintro ⟨s', digits, heq, hsplit, h7, h15, hall, hhead⟩
          have hss : s' = s := by injection heq with h; exact h.symm
          subst hss
          exact ⟨digits, hsplit, h7, h15, hall, hhead⟩

/-- Witness for C7: a concrete accepted number with separators, via the
equivalence. -/
theorem validatePhone_spec_witness : phoneSpecAccepts (some "+32 123-456(7)") :=
  (validatePhone_spec (some "+32 123-456(7)")).1 (by decide)

/-- Claim C9 (evaluated at the failing input): the `src/index.js`
incoming-call webhook embeds the raw `From` value, so an injected tag
appears verbatim in the returned markup; the `src/unnamed/part_001` webhook
sanitizes, so its document contains neither the tag nor its payload text;
and `sanitizePhone` only ever lets plus signs and digits through. -/
theorem incoming_call_injection :
    containsSub
        (incomingCallIndex "example.com" (some "<script>alert(1)</script>")
          (some "+3298765432") (some "biz-1"))
        "<script>alert(1)</script>" = true
    ∧ containsSub
        (incomingCallTwimlPart001 "example.com" (some "<script>alert(1)</script>"))
        "<script" = false
    ∧ containsSub
        (incomingCallTwimlPart001 "example.com" (some "<script>alert(1)</script>"))
        "alert" = false
    ∧ (∀ p : Option String,
        ((sanitizePhone p).toList.all (fun c => c = '+' || isDigitJS c)) = true) := by
  refine ⟨by decide, by decide, by decide, ?_⟩
  intro p
  have hl : (sanitizePhone p).toList
      = (p.getD "").toList.filter (fun c => c = '+' || isDigitJS c) := rfl
  rw [hl]
  simp only [List.all_eq_true]
  intro c hc
  exact (List.mem_filter.1 hc).2
